import Mathlib

/-!
# Verification of the BotsV1 log analyzer (`src/main.py`)

Shallow embedding of the `BotsV1Analyzer` class of `src/main.py` and proofs
about its detection/aggregation logic.

Modelling conventions:
* A pandas `DataFrame` is modelled as a record of schema flags (which columns
  are present) plus a list of rows; a cell that holds pandas `NaN`/`None` is
  an `Option.none`.
* Python exceptions are modelled with `Except PyErr`; an unguarded access to
  a missing column (`df['c']`) is a `PyErr.keyError`.
* `pandas.Series.value_counts()` is modelled as the list of (distinct value,
  occurrence count) pairs over the non-null cells; its sort order is
  irrelevant to every observable modelled here (all outputs are counts or
  sums over the distinct values), so the order of `List.dedup` is used.
-/

/-- A Python exception, as far as the analyzer can raise one. -/
inductive PyErr
  | keyError
  | valueError
deriving DecidableEq

/-! ## WinEvent model (`load_winevent_data` / `analyze_winevent_logs`) -/

/-- Risk tiers of the event catalog (`main.py` lines 137-170). -/
inductive Risk
  | High
  | Medium
  | Low
deriving DecidableEq

/-- One row of the WinEvent frame, with the two columns the analysis reads:
`EventCode` (after `pd.to_numeric(..., errors='coerce')`, so `none` is the
NaN produced for a missing or unparseable code, line 43) and `ComputerName`. -/
structure WinRow where
  eventCode : Option Int
  computerName : Option String
deriving DecidableEq

/-- The fixed 21-entry `suspicious_events` catalog (`main.py` lines 137-170):
event identifier, name, risk tier.  The `desc` strings are never read by the
analysis and are omitted. -/
def suspicious_events : List (Int × String × Risk) :=
  [ (4624, "Successful Logon", Risk.Medium)
  , (4625, "Failed Logon", Risk.High)
  , (4634, "Logoff", Risk.Low)
  , (4648, "Logon with Explicit Credentials", Risk.High)
  , (4672, "Special Privileges Assigned", Risk.High)
  , (4688, "Process Creation", Risk.Medium)
  , (4689, "Process Exit", Risk.Low)
  , (4698, "Scheduled Task Created", Risk.High)
  , (4703, "Token Manipulation", Risk.High)
  , (4720, "User Account Created", Risk.High)
  , (4732, "Member Added to Security Group", Risk.High)
  , (4768, "Kerberos Ticket Request", Risk.Medium)
  , (4769, "Kerberos Service Ticket", Risk.Medium)
  , (4776, "Credential Validation", Risk.Medium)
  , (4798, "User Group Membership", Risk.Medium)
  , (4799, "Security Group Membership", Risk.Medium)
  , (5140, "Share Accessed", Risk.Medium)
  , (5145, "Share Access Check", Risk.Medium)
  , (5156, "Connection Allowed", Risk.Low)
  , (5158, "Bind to Port", Risk.Medium)
  , (7045, "Service Installed", Risk.High)
  ]

/-- `suspicious_events.get(event_id)` / `event_id in suspicious_events`. -/
def lookupEvent (id : Int) : Option (String × Risk) :=
  (suspicious_events.find? (fun e => e.1 == id)).map (fun e => e.2)

/-- The `EventCode` values of the rows surviving the
`isin(suspicious_events.keys())` filter (line 183): NaN codes never match
`isin` and catalog membership is required. -/
def suspiciousCodes (rows : List WinRow) : List Int :=
  (rows.filterMap (fun r => r.eventCode)).filter (fun id => (lookupEvent id).isSome)

/-- `f"[{event_id}] {suspicious_events[event_id]['name']}"` (line 195). -/
def eventLabel (id : Int) : String :=
  "[" ++ toString id ++ "] " ++ (((lookupEvent id).map Prod.fst).getD "")

/-- The `result` dict built on lines 192-196: one entry per distinct
suspicious `EventCode`, labelled, with its occurrence count.  (The guard
`if event_id in suspicious_events` is always true there because the rows were
already filtered by `isin`.) -/
def winResult (rows : List WinRow) : List (String × Nat) :=
  let codes := suspiciousCodes rows
  codes.dedup.map (fun id => (eventLabel id, codes.count id))

/-- One step of the `risk_levels[risk] += count` loop (lines 199-204). -/
def riskStep (codes : List Int) (acc : Nat × Nat × Nat) (id : Int) : Nat × Nat × Nat :=
  match lookupEvent id with
  | some (_, Risk.High) => (acc.1 + codes.count id, acc.2.1, acc.2.2)
  | some (_, Risk.Medium) => (acc.1, acc.2.1 + codes.count id, acc.2.2)
  | some (_, Risk.Low) => (acc.1, acc.2.1, acc.2.2 + codes.count id)
  | none => acc

/-- The `risk_levels` dict (lines 199-204) as (High, Medium, Low): iterate
over the distinct suspicious codes and add each one's count to its tier. -/
def riskLevels (rows : List WinRow) : Nat × Nat × Nat :=
  let codes := suspiciousCodes rows
  codes.dedup.foldl (riskStep codes) (0, 0, 0)

/-- `analyze_winevent_logs` (lines 126-222), restricted to its observable
outputs: the suspicious-event mapping it returns and the risk-tier counts it
reports.  A `None` or empty frame returns empty results (lines 132-134). -/
def analyze_winevent_logs (df : Option (List WinRow)) :
    List (String × Nat) × (Nat × Nat × Nat) :=
  match df with
  | none => ([], (0, 0, 0))
  | some rows =>
    if rows.isEmpty then ([], (0, 0, 0))
    else (winResult rows, riskLevels rows)

/-! ## DNS model (`load_dns_data` / `_create_sample_dns_data` / `analyze_dns_logs`) -/

/-- One row of the DNS frame.  The first four fields are the columns a loaded
batch may carry (cell = `none` when the cell is null *or* when the column is
absent from the schema, see `DnsDF`); `tld` and `domain_length` are the
columns `analyze_dns_logs` itself assigns (lines 258 and 282). -/
structure DnsRow where
  domain : Option String
  client_ip : Option String
  query_type : Option String
  response_code : Option Int
  tld : Option String
  domain_length : Option Nat
deriving DecidableEq

/-- The DNS frame: schema flags (`'c' in df.columns`) plus rows.  A row's
cell is only meaningful when the corresponding column is present. -/
structure DnsDF where
  hasDomain : Bool
  hasClientIp : Bool
  hasQueryType : Bool
  hasResponseCode : Bool
  hasTld : Bool
  hasDomainLength : Bool
  rows : List DnsRow
deriving DecidableEq

/-- `value_counts()` over a column: pairs (distinct non-null value, its
occurrence count).  pandas drops nulls (`dropna=True` default) and sorts by
descending count; the order is irrelevant to everything modelled here. -/
def valueCounts {α : Type} [DecidableEq α] (xs : List α) : List (α × Nat) :=
  xs.dedup.map (fun a => (a, xs.count a))

/-- `get_tld` (lines 252-256):
`'.' + str(domain).split('.')[-1] if len(str(domain).split('.')) > 1 else ''`,
with `pd.isna(domain)` mapped to `''`.  `split('.')` has more than one part
exactly when the string contains a dot, and its last part is the run of
characters after the final dot — the embedding below computes that run
directly. -/
def get_tld (domain : Option String) : String :=
  match domain with
  | none => ""
  | some s =>
    let cs := s.toList
    if cs.contains '.' then
      String.mk ('.' :: (cs.reverse.takeWhile (fun c => !(c == '.'))).reverse)
    else ""

/-- `str(domain)` under `.astype(str)` (line 282): a null cell stringifies to
a short placeholder (`'nan'` for float NaN, `'None'` for object `None`); its
length is far below the 30-character cutoff either way. -/
def py_str (domain : Option String) : String :=
  match domain with
  | none => "nan"
  | some s => s

/-- The fixed suspicious-TLD list (line 250). -/
def suspicious_tlds : List String :=
  [".xyz", ".top", ".work", ".date", ".win", ".bid", ".trade", ".cc", ".info"]

/-- The fixed unusual query-type list (line 289). -/
def unusual_query_types : List String :=
  ["TXT", "ANY", "AXFR", "CNAME"]

/-- Row transform of the column assignment
`self.dns_df['tld'] = self.dns_df['domain'].apply(get_tld)` (line 258). -/
def addTldRow (r : DnsRow) : DnsRow :=
  { r with tld := some (get_tld r.domain) }

/-- Row transform of the column assignment
`self.dns_df['domain_length'] = self.dns_df['domain'].astype(str).apply(len)`
(line 282). -/
def addLenRow (r : DnsRow) : DnsRow :=
  { r with domain_length := some (py_str r.domain).length }

/-- The rows after the `tld` assignment (line 258). -/
def rows1 (rows : List DnsRow) : List DnsRow :=
  rows.map addTldRow

/-- The rows after the `domain_length` assignment (line 282). -/
def rows2 (rows : List DnsRow) : List DnsRow :=
  (rows1 rows).map addLenRow

/-- Heuristic 1 (lines 237-241): `domain_counts = value_counts();`
`rare_domains = domain_counts[domain_counts < 3]; len(rare_domains)` —
the number of *distinct* domains occurring fewer than 3 times. -/
def rareCount (rows : List DnsRow) : Nat :=
  ((valueCounts (rows.filterMap (fun r => r.domain))).filter
    (fun p => decide (p.2 < 3))).length

/-- Heuristic 2 (lines 258-260): rows whose (just assigned) `tld` column
value is in `suspicious_tlds`; `isin` is false on a null cell. -/
def tldColCount (rs : List DnsRow) : Nat :=
  (rs.filter (fun r =>
    match r.tld with
    | some t => suspicious_tlds.contains t
    | none => false)).length

/-- Heuristic 3 (lines 270-272): rows with `response_code != 0`.  A null
response code compares `NaN != 0`, which is true in pandas, hence `none`
counts as failed. -/
def failedCount (rs : List DnsRow) : Nat :=
  (rs.filter (fun r => !(r.response_code == some 0))).length

/-- Heuristic 4 (lines 282-284): rows whose (just assigned) `domain_length`
column value exceeds 30; `NaN > 30` is false. -/
def lenColCount (rs : List DnsRow) : Nat :=
  (rs.filter (fun r =>
    match r.domain_length with
    | some k => decide (30 < k)
    | none => false)).length

/-- Heuristic 5 (lines 288-291): rows whose `query_type` is in
`unusual_query_types`; `isin` is false on a null cell. -/
def unusualCount (rs : List DnsRow) : Nat :=
  (rs.filter (fun r =>
    match r.query_type with
    | some q => unusual_query_types.contains q
    | none => false)).length

/-- The per-client-IP frequency distribution
`ip_frequency = self.dns_df['client_ip'].value_counts()` (line 301):
one entry per distinct non-null client IP. -/
def ipFreqs (rs : List DnsRow) : List Nat :=
  (valueCounts (rs.filterMap (fun r => r.client_ip))).map (fun p => p.2)

/-- The test `f > ip_frequency.mean() + 2 * ip_frequency.std()` (lines
302-303) for a frequency `f` against the distribution `fs`, as an exact
integer inequality.  With `n = fs.length` and `S = fs.sum`, pandas gives
`mean = S/n` and `std = sqrt(sum((x - S/n)^2) / (n-1))` (`Series.std`
defaults to `ddof=1`, the Bessel-corrected sample deviation).  For `n >= 2`,
`f > S/n + 2*std` holds iff `n*f > S` and, multiplying the squared excess by
`n^2 > 0`, `(n*f - S)^2 * (n-1) > 4 * sum((n*x - S)^2)` — both comparands of
the square root are nonnegative under `n*f > S`, so squaring is exact.  For
`n = 1` pandas `std` is `NaN` (division by `ddof` leaves no degrees of
freedom), the threshold is `NaN`, and every `>` comparison with `NaN` is
false: no frequency is flagged, which the `2 <= fs.length` conjunct
captures.  (`n = 0` means there is no frequency to test at all.) -/
def sampleFlag (fs : List Nat) (f : Nat) : Bool :=
  let n : Int := fs.length
  let S : Int := (fs.map (fun x => (x : Int))).sum
  decide (2 ≤ fs.length) && decide (S < n * f) &&
    decide (4 * ((fs.map (fun x => (n * x - S) ^ 2)).sum) < (n * f - S) ^ 2 * (n - 1))

/-- Heuristic 6 (lines 300-304): the number of entries of `ip_frequency`
(i.e. distinct client IPs) whose frequency exceeds the threshold. -/
def highFreqCount (rs : List DnsRow) : Nat :=
  let fs := ipFreqs rs
  (fs.filter (fun f => sampleFlag fs f)).length

/-- The frame as left behind by a successful `analyze_dns_logs` run on a
nonempty frame with a `domain` column: the `tld` and `domain_length` columns
have been assigned (lines 258, 282), everything else is untouched. -/
def finalDF (d : DnsDF) : DnsDF :=
  { d with hasTld := true, hasDomainLength := true, rows := rows2 d.rows }

/-- The `suspicious_criteria` dict built by a successful `analyze_dns_logs`
run on a nonempty frame with a `domain` column, in insertion order:
* `Rare Domain Queries` and `Unusual TLD Queries` are unconditional (the
  `domain` accesses on lines 237 and 258 are unguarded);
* `Failed DNS Responses` only when `response_code` is a column (line 270);
* `Long Domain Names (>30 chars)` under `if 'domain' in columns` (line 281),
  which is true on this path;
* `Unusual Query Types` only when `query_type` is a column (line 288);
* `High Query Frequency IPs` only when `client_ip` is a column (line 300).
Each heuristic reads the rows as mutated so far (`rows1` after line 258,
`rows2` after line 282). -/
def outputOf (d : DnsDF) : List (String × Nat) :=
  ("Rare Domain Queries", rareCount d.rows)
  :: ("Unusual TLD Queries", tldColCount (rows1 d.rows))
  :: ((if d.hasResponseCode then [("Failed DNS Responses", failedCount (rows1 d.rows))] else [])
      ++ [("Long Domain Names (>30 chars)", lenColCount (rows2 d.rows))]
      ++ (if d.hasQueryType then [("Unusual Query Types", unusualCount (rows2 d.rows))] else [])
      ++ (if d.hasClientIp then [("High Query Frequency IPs", highFreqCount (rows2 d.rows))] else []))

/-- `analyze_dns_logs` (lines 224-313): a `None` or empty frame returns `{}`
untouched (lines 230-232); a nonempty frame without a `domain` column hits
the unguarded `self.dns_df['domain']` on line 237 and raises `KeyError`;
otherwise the six heuristics run, mutating the stored frame as they go, and
the criteria dict is returned. -/
def analyze_dns_logs (df : Option DnsDF) :
    Except PyErr (Option DnsDF × List (String × Nat)) :=
  match df with
  | none => .ok (none, [])
  | some d =>
    if d.rows.isEmpty then .ok (some d, [])
    else if d.hasDomain then .ok (some (finalDF d), outputOf d)
    else .error PyErr.keyError

/-- The count reported by `analyze_dns_logs` under a given label, when the
call succeeds and emits that label. -/
def dnsEntry (label : String) (df : Option DnsDF) : Option Nat :=
  match analyze_dns_logs df with
  | .ok (_, out) => out.lookup label
  | .error _ => none

/-- The whole analyzer state (`self.winevent_df` / `self.dns_df`): the
`analyze_dns_logs` method reads and writes only `self.dns_df` (and the
`suspicious_events` result cache); it never touches `self.winevent_df`. -/
structure AnalyzerState where
  winevent_df : Option (List WinRow)
  dns_df : Option DnsDF
deriving DecidableEq

/-- `analyze_dns_logs` as an action on the analyzer state. -/
def analyze_dns_logs_state (s : AnalyzerState) :
    Except PyErr (AnalyzerState × List (String × Nat)) :=
  match analyze_dns_logs s.dns_df with
  | .ok (d, out) => .ok ({ winevent_df := s.winevent_df, dns_df := d }, out)
  | .error e => .error e

/-! ## DNS loading and the synthetic-data fallback (`main.py` lines 55-124) -/

/-- The eight `normal_domains` of `_create_sample_dns_data` (lines 91-92). -/
def normal_domains : List String :=
  [ "google.com", "microsoft.com", "amazon.com", "facebook.com"
  , "twitter.com", "github.com", "stackoverflow.com", "bing.com" ]

/-- The twelve `suspicious_domains` of `_create_sample_dns_data`
(lines 95-100). -/
def suspicious_domains : List String :=
  [ "malware-domain.xyz", "c2-server.top", "phishing-site.work"
  , "dga-generated.bid", "suspicious-payload.trade", "unknown-malware.date"
  , "rare-domain.win", "strange-pattern.cc", "potential-c2.net"
  , "data-exfil.info", "encrypted-channel.org", "suspicious-activity.ru" ]

/-- The probability vector handed to the first `np.random.choice` call
(lines 103-105): `[0.03] * len(suspicious_domains)` followed by
`[0.7 / len(normal_domains)] * len(normal_domains)`, as exact rationals.
(Each entry is exactly representable up to float rounding of order `1e-17`,
negligible against the `0.06` discrepancy established below.) -/
def sample_domain_probs : List ℚ :=
  List.replicate suspicious_domains.length (3 / 100)
    ++ List.replicate normal_domains.length (7 / 10 / (normal_domains.length : ℚ))

/-- `np.random.choice(a, size, p=p)` validates its probability vector before
drawing: the weights must match the population in length, be nonnegative and
sum to 1 (numpy tolerates `|sum - 1| <= sqrt(eps) ~ 1.5e-8`; the vector above
misses by `0.06`, so the tolerance is irrelevant and the check is modelled
exactly).  On failure it raises `ValueError` (`probabilities do not sum
to 1`). -/
def np_choice_p_ok (populationLen : Nat) (p : List ℚ) : Prop :=
  p.length = populationLen ∧ p.sum = 1 ∧ ∀ x ∈ p, 0 ≤ x

instance (n : Nat) (p : List ℚ) : Decidable (np_choice_p_ok n p) := by
  unfold np_choice_p_ok; infer_instance

/-- `_create_sample_dns_data` (lines 85-124) up to its first random draw:
the `np.random.choice` call for the domain column (line 103) validates the
probability vector `sample_domain_probs` and raises `ValueError` when it is
invalid.  The construction of the 500-record frame after a successful draw is
unreachable for the actual vector (see `c2_code_bug`): the schema of the
frame it would build (line 115-122: timestamp, domain, client_ip, query_type,
response_code, response_size) is recorded, its (never produced) contents are
not modelled further. -/
def create_sample_dns_data : Except PyErr DnsDF :=
  if np_choice_p_ok (suspicious_domains.length + normal_domains.length) sample_domain_probs
  then .ok { hasDomain := true, hasClientIp := true, hasQueryType := true
           , hasResponseCode := true, hasTld := false, hasDomainLength := false
           , rows := [] }
  else .error PyErr.valueError

/-- How a call to `load_dns_data` finds its source: the file is missing
(line 61), has an unsupported extension (line 73), raises while loading
(line 80), or loads as a frame. -/
inductive DnsSource
  | missingFile
  | unsupportedExt
  | loadRaises
  | loaded (d : DnsDF)

/-- `load_dns_data` (lines 55-83).  On a missing file or unsupported
extension the generator is called *inside* the `try` (lines 63, 75), so an
exception from it lands in the `except` handler, which calls the generator a
second time (line 83) — this second call is outside any handler, so its
exception propagates to the caller.  A load exception reaches the handler
directly and likewise escalates any generator exception. -/
def load_dns_data (src : DnsSource) : Except PyErr (Option DnsDF) :=
  match src with
  | .missingFile | .unsupportedExt =>
    (match create_sample_dns_data with
     | .ok d => .ok (some d)
     | .error _ => create_sample_dns_data.map some)
  | .loadRaises => create_sample_dns_data.map some
  | .loaded d => .ok (some d)

/-! ## Helper lemmas -/

/-- On a nonempty frame with a `domain` column, `analyze_dns_logs` succeeds
with the mutated frame and the criteria dict. -/
theorem analyze_dns_logs_eq (d : DnsDF) (h1 : d.rows ≠ []) (h2 : d.hasDomain = true) :
    analyze_dns_logs (some d) = .ok (some (finalDF d), outputOf d) := by
  have he : d.rows.isEmpty = false := by
    cases hr : d.rows with
    | nil => exact absurd hr h1
    | cons a l => rfl
  simp [analyze_dns_logs, he, h2]

/-- The `tld` assignment does not change the `domain` column. -/
theorem filterMap_domain_rows1 (l : List DnsRow) :
    (rows1 l).filterMap (fun r => r.domain) = l.filterMap (fun r => r.domain) := by
  rw [rows1, List.filterMap_map]; rfl

/-- Neither assignment changes the `domain` column. -/
theorem filterMap_domain_rows2 (l : List DnsRow) :
    (rows2 l).filterMap (fun r => r.domain) = l.filterMap (fun r => r.domain) := by
  rw [rows2, List.filterMap_map, rows1, List.filterMap_map]; rfl

/-- Neither assignment changes the `client_ip` column. -/
theorem filterMap_ip_rows2 (l : List DnsRow) :
    (rows2 l).filterMap (fun r => r.client_ip) = l.filterMap (fun r => r.client_ip) := by
  rw [rows2, List.filterMap_map, rows1, List.filterMap_map]; rfl

/-- The rare-domain count only reads the `domain` column, so it is invariant
under the two column assignments. -/
theorem rareCount_rows2 (l : List DnsRow) : rareCount (rows2 l) = rareCount l := by
  rw [rareCount, filterMap_domain_rows2, rareCount]

/-- The suspicious-TLD count over freshly assigned `tld` cells, reduced to
the `domain` column. -/
theorem tldColCount_rows1 (l : List DnsRow) :
    tldColCount (rows1 l)
      = (l.filter (fun r => suspicious_tlds.contains (get_tld r.domain))).length := by
  rw [tldColCount, rows1, List.filter_map, List.length_map]; rfl

/-- The failed-response count only reads `response_code`. -/
theorem failedCount_rows1 (l : List DnsRow) :
    failedCount (rows1 l) = (l.filter (fun r => !(r.response_code == some 0))).length := by
  rw [failedCount, rows1, List.filter_map, List.length_map]; rfl

/-- The long-domain count over freshly assigned `domain_length` cells,
reduced to the `domain` column. -/
theorem lenColCount_rows2 (l : List DnsRow) :
    lenColCount (rows2 l) = (l.filter (fun r => decide (30 < (py_str r.domain).length))).length := by
  rw [lenColCount, rows2, List.filter_map, List.length_map, rows1, List.filter_map,
    List.length_map]
  rfl

/-- The unusual-query-type count only reads `query_type`. -/
theorem unusualCount_rows2 (l : List DnsRow) :
    unusualCount (rows2 l)
      = (l.filter (fun r =>
          match r.query_type with
          | some q => unusual_query_types.contains q
          | none => false)).length := by
  rw [unusualCount, rows2, List.filter_map, List.length_map, rows1, List.filter_map,
    List.length_map]
  rfl

/-- The per-IP frequency distribution only reads `client_ip`. -/
theorem ipFreqs_rows2 (l : List DnsRow) : ipFreqs (rows2 l) = ipFreqs l := by
  rw [ipFreqs, filterMap_ip_rows2, ipFreqs]

/-- The high-frequency-IP count only reads `client_ip`. -/
theorem highFreqCount_rows2 (l : List DnsRow) : highFreqCount (rows2 l) = highFreqCount l := by
  rw [highFreqCount, ipFreqs_rows2, highFreqCount]

/-- Filters whose predicate is blind to the `tld` / `domain_length` cells are
unchanged in length by the two column assignments. -/
theorem length_filter_rows2 (l : List DnsRow) (q : DnsRow → Bool)
    (hq : ∀ r, q (addLenRow (addTldRow r)) = q r) :
    ((rows2 l).filter q).length = (l.filter q).length := by
  rw [rows2, List.filter_map, List.length_map, rows1, List.filter_map, List.length_map]
  exact congrArg List.length (List.filter_congr fun r _ => hq r)

/-- Re-running the `tld` assignment over already mutated rows flags the same
records (the `domain` cells are unchanged). -/
theorem tldColCount_rows1_rows2 (l : List DnsRow) :
    tldColCount (rows1 (rows2 l)) = tldColCount (rows1 l) := by
  rw [tldColCount_rows1, tldColCount_rows1]
  exact length_filter_rows2 l _ (fun r => rfl)

/-- The failed-response count is unchanged by the two column assignments. -/
theorem failedCount_rows1_rows2 (l : List DnsRow) :
    failedCount (rows1 (rows2 l)) = failedCount (rows1 l) := by
  rw [failedCount_rows1, failedCount_rows1]
  exact length_filter_rows2 l _ (fun r => rfl)

/-- Re-running the `domain_length` assignment over already mutated rows flags
the same records. -/
theorem lenColCount_rows2_rows2 (l : List DnsRow) :
    lenColCount (rows2 (rows2 l)) = lenColCount (rows2 l) := by
  rw [lenColCount_rows2, lenColCount_rows2]
  exact length_filter_rows2 l _ (fun r => rfl)

/-- The unusual-query-type count is unchanged by the two column assignments. -/
theorem unusualCount_rows2_rows2 (l : List DnsRow) :
    unusualCount (rows2 (rows2 l)) = unusualCount (rows2 l) := by
  rw [unusualCount_rows2, unusualCount_rows2]
  exact length_filter_rows2 l _ (fun r => rfl)

/-- The criteria dict computed from the frame `analyze_dns_logs` leaves
behind is the criteria dict of the original frame: every heuristic reads only
the loader-provided columns, which the two assignments do not touch. -/
theorem outputOf_finalDF (d : DnsDF) : outputOf (finalDF d) = outputOf d := by
  simp only [outputOf, finalDF, rareCount_rows2, tldColCount_rows1_rows2,
    failedCount_rows1_rows2, lenColCount_rows2_rows2, unusualCount_rows2_rows2,
    highFreqCount_rows2]

/-- The reported `Rare Domain Queries` entry. -/
theorem dnsEntry_rare (d : DnsDF) (h1 : d.rows ≠ []) (h2 : d.hasDomain = true) :
    dnsEntry "Rare Domain Queries" (some d) = some (rareCount d.rows) := by
  rw [dnsEntry, analyze_dns_logs_eq d h1 h2]
  rfl

/-- The reported `Unusual TLD Queries` entry. -/
theorem dnsEntry_tld (d : DnsDF) (h1 : d.rows ≠ []) (h2 : d.hasDomain = true) :
    dnsEntry "Unusual TLD Queries" (some d) = some (tldColCount (rows1 d.rows)) := by
  rw [dnsEntry, analyze_dns_logs_eq d h1 h2]
  rfl

/-- The reported `High Query Frequency IPs` entry, present whenever the
`client_ip` column is. -/
theorem dnsEntry_highFreq (d : DnsDF) (h1 : d.rows ≠ []) (h2 : d.hasDomain = true)
    (h3 : d.hasClientIp = true) :
    dnsEntry "High Query Frequency IPs" (some d) = some (highFreqCount (rows2 d.rows)) := by
  rw [dnsEntry, analyze_dns_logs_eq d h1 h2]
  show (outputOf d).lookup "High Query Frequency IPs" = _
  rw [outputOf, h3]
  cases hrc : d.hasResponseCode <;> cases hqt : d.hasQueryType <;> rfl

/-- Summing the three components of the `risk_levels` fold: each distinct
catalogued code contributes its count to exactly one tier. -/
theorem riskFold_sum (codes : List Int) (l : List Int) :
    (∀ id ∈ l, (lookupEvent id).isSome) → ∀ acc : Nat × Nat × Nat,
      ((l.foldl (riskStep codes) acc).1 + (l.foldl (riskStep codes) acc).2.1
          + (l.foldl (riskStep codes) acc).2.2)
        = acc.1 + acc.2.1 + acc.2.2 + (l.map (fun id => codes.count id)).sum := by
  induction l with
  | nil => intro _ acc; simp
  | cons a l ih =>
    intro h acc
    have ha := h a (List.mem_cons_self a l)
    have hl : ∀ id ∈ l, (lookupEvent id).isSome := fun id hid => h id (List.mem_cons_of_mem a hid)
    rw [List.foldl_cons, ih hl]
    rcases he : lookupEvent a with _ | ⟨nm, rk⟩
    · rw [he] at ha; simp at ha
    · cases rk <;> simp [riskStep, he] <;> omega

/-- Every distinct suspicious code has a catalog entry. -/
theorem mem_dedup_suspiciousCodes_isSome (rows : List WinRow) :
    ∀ id ∈ (suspiciousCodes rows).dedup, (lookupEvent id).isSome := by
  intro id hid
  have hmem := List.mem_dedup.mp hid
  rw [suspiciousCodes] at hmem
  exact (List.mem_filter.mp hmem).2

/-- C3: for every WinEvent batch, the sum of the three risk-tier counts
(High + Medium + Low) reported by `analyze_winevent_logs` equals the sum of
all counts in the suspicious-event mapping it returns. -/
theorem c3_tier_sum_eq_suspicious_sum (df : Option (List WinRow)) :
    (analyze_winevent_logs df).2.1 + (analyze_winevent_logs df).2.2.1
        + (analyze_winevent_logs df).2.2.2
      = ((analyze_winevent_logs df).1.map (fun p => p.2)).sum := by
  match df with
  | none => rfl
  | some rows =>
    rw [analyze_winevent_logs]
    cases hre : rows.isEmpty with
    | true => simp
    | false =>
      simp only [Bool.false_eq_true, if_false]
      rw [riskLevels, riskFold_sum (suspiciousCodes rows) (suspiciousCodes rows).dedup
        (mem_dedup_suspiciousCodes_isSome rows) (0, 0, 0), winResult]
      simp only [List.map_map, Nat.zero_add]
      rfl

/-- C8: a batch of 3 event records with identifiers 4625, 4625, 9999 yields
the suspicious mapping containing exactly `[4625] Failed Logon -> 2` and tier
counts High 2, Medium 0, Low 0; identifier 9999 is not in the catalog and is
excluded. -/
theorem c8_scenario :
    analyze_winevent_logs (some
        [ { eventCode := some 4625, computerName := some "host-a" }
        , { eventCode := some 4625, computerName := some "host-b" }
        , { eventCode := some 9999, computerName := some "host-c" } ])
      = ([("[4625] Failed Logon", 2)], (2, 0, 0)) := by
  decide

/-- The probability vector of the synthetic generator sums to `1.06`, not 1:
twelve weights of `0.03` plus eight weights of `0.7/8`. -/
theorem sample_domain_probs_sum : sample_domain_probs.sum = 53 / 50 := by
  simp [sample_domain_probs, suspicious_domains, normal_domains, List.sum_replicate]
  norm_num

/-- `_create_sample_dns_data` raises `ValueError` at its first
`np.random.choice` call: its probability vector fails numpy's sum-to-1
validation. -/
theorem create_sample_dns_data_raises :
    create_sample_dns_data = .error PyErr.valueError := by
  rw [create_sample_dns_data, if_neg]
  intro h
  have hsum := h.2.1
  rw [sample_domain_probs_sum] at hsum
  norm_num at hsum

/-- C2: every DNS load failure (missing file, unsupported extension, load
exception) reaches the synthetic generator, but instead of producing the
claimed 500-record batch the generator raises `ValueError` — its domain
probability vector sums to `53/50 = 1.06`, not 1 — and the exception
escapes `load_dns_data`, aborting the run. -/
theorem c2_load_failure_raises :
    load_dns_data DnsSource.missingFile = .error PyErr.valueError
    ∧ load_dns_data DnsSource.unsupportedExt = .error PyErr.valueError
    ∧ load_dns_data DnsSource.loadRaises = .error PyErr.valueError
    ∧ sample_domain_probs.sum ≠ 1 := by
  refine ⟨?_, ?_, ?_, ?_⟩
  · rw [load_dns_data, create_sample_dns_data_raises]; rfl
  · rw [load_dns_data, create_sample_dns_data_raises]; rfl
  · rw [load_dns_data, create_sample_dns_data_raises]; rfl
  · rw [sample_domain_probs_sum]; norm_num

/-! ## Spec-side definitions (stated from the spec's words, for comparison
with the embedded code) -/

/-- The rare-domain count as the spec states it: the number of distinct
(non-null) domain values whose total occurrence in the batch is strictly
less than 3. -/
def rareDomainsSpec (rows : List DnsRow) : Nat :=
  ((rows.filterMap (fun r => r.domain)).dedup.filter
    (fun dom => decide ((rows.filterMap (fun r => r.domain)).count dom < 3))).length

/-- The high-frequency test as claim C5 states it, with the *population*
standard deviation (`ddof = 0`): `f > S/n + 2 * sqrt(sum((x - S/n)^2) / n)`,
cleared of denominators exactly as in `sampleFlag` (multiply the squared
comparison by `n^2 > 0`; squaring is exact because both comparands are
nonnegative under `n*f > S`). -/
def popFlag (fs : List Nat) (f : Nat) : Bool :=
  let n : Int := fs.length
  let S : Int := (fs.map (fun x => (x : Int))).sum
  decide (1 ≤ fs.length) && decide (S < n * f) &&
    decide (4 * ((fs.map (fun x => (n * x - S) ^ 2)).sum) < (n * f - S) ^ 2 * n)

/-- Claim C5's asserted count: distinct client IPs whose frequency strictly
exceeds `mean + 2 * population_std` of the per-IP frequency distribution. -/
def highFreqPopSpec (rows : List DnsRow) : Nat :=
  let fs := ipFreqs rows
  (fs.filter (fun f => popFlag fs f)).length

/-- The amended high-frequency count stated standalone: distinct client IPs
whose frequency strictly exceeds `mean + 2 * sample_std` (`ddof = 1`, the
pandas default), no IP flagged when fewer than two distinct IPs exist. -/
def highFreqSampleSpec (rows : List DnsRow) : Nat :=
  ((rows.filterMap (fun r => r.client_ip)).dedup.filter
    (fun ip => sampleFlag (ipFreqs rows) ((rows.filterMap (fun r => r.client_ip)).count ip))).length

/-- A loader-shaped DNS row: the `tld` / `domain_length` cells do not exist
yet. -/
def mkRow (dom ip qt : Option String) (rc : Option Int) : DnsRow :=
  { domain := dom, client_ip := ip, query_type := qt, response_code := rc
  , tld := none, domain_length := none }

/-- The code's rare-domain count is the spec's distinct-domain count. -/
theorem rareCount_eq_spec (rows : List DnsRow) : rareCount rows = rareDomainsSpec rows := by
  rw [rareCount, valueCounts, List.filter_map, List.length_map, rareDomainsSpec]
  rfl

/-- Filtering the counts of `value_counts()` entries is filtering the
distinct values by their count. -/
theorem length_filter_map_snd_valueCounts {a : Type} [DecidableEq a] (xs : List a)
    (p : Nat -> Bool) :
    (((valueCounts xs).map (fun q => q.2)).filter p).length
      = (xs.dedup.filter (fun v => p (xs.count v))).length := by
  rw [valueCounts, List.map_map, List.filter_map, List.length_map]
  rfl

/-- The code's high-frequency count is the standalone sample-std count: the
entries of `ip_frequency` are exactly the distinct client IPs with their
occurrence counts. -/
theorem highFreqCount_eq_sampleSpec (rows : List DnsRow) :
    highFreqCount rows = highFreqSampleSpec rows := by
  show (((valueCounts (rows.filterMap (fun r => r.client_ip))).map (fun q => q.2)).filter
      (fun f => sampleFlag (ipFreqs rows) f)).length = highFreqSampleSpec rows
  rw [length_filter_map_snd_valueCounts]
  rfl

/-! ## Claim theorems: DNS heuristics -/

/-- A nonempty batch that lacks the `domain` column but carries
`response_code`, `query_type` and `client_ip`. -/
def noDomainBatch : DnsDF :=
  { hasDomain := false, hasClientIp := true, hasQueryType := true
  , hasResponseCode := true, hasTld := false, hasDomainLength := false
  , rows := [ mkRow none (some "10.0.0.1") (some "TXT") (some 3) ] }

/-- C1, counterexample: on a batch lacking only the `domain` column,
`analyze_dns_logs` raises `KeyError` (the unguarded
`self.dns_df['domain']` on line 237) and emits none of the response-code,
query-type or client-IP heuristic counts — the claim said those would still
be produced without error. -/
theorem c1_counterexample :
    analyze_dns_logs (some noDomainBatch) = .error PyErr.keyError
    ∧ dnsEntry "Failed DNS Responses" (some noDomainBatch) = none
    ∧ dnsEntry "Unusual Query Types" (some noDomainBatch) = none
    ∧ dnsEntry "High Query Frequency IPs" (some noDomainBatch) = none := by
  exact ⟨rfl, rfl, rfl, rfl⟩

/-- C1, amended: on a nonempty batch, a missing `response_code`,
`query_type` or `client_ip` column skips exactly the corresponding heuristic
(no entry, no error), and the rare-domain, TLD and domain-length entries are
always present — but a missing `domain` column is not skipped: the call
raises `KeyError` and emits nothing. -/
theorem c1_amended (d : DnsDF) (h1 : d.rows ≠ []) :
    (d.hasDomain = false → analyze_dns_logs (some d) = .error PyErr.keyError)
    ∧ (d.hasDomain = true →
        analyze_dns_logs (some d) = .ok (some (finalDF d), outputOf d)
        ∧ "Rare Domain Queries" ∈ (outputOf d).map Prod.fst
        ∧ "Unusual TLD Queries" ∈ (outputOf d).map Prod.fst
        ∧ "Long Domain Names (>30 chars)" ∈ (outputOf d).map Prod.fst
        ∧ ("Failed DNS Responses" ∈ (outputOf d).map Prod.fst ↔ d.hasResponseCode = true)
        ∧ ("Unusual Query Types" ∈ (outputOf d).map Prod.fst ↔ d.hasQueryType = true)
        ∧ ("High Query Frequency IPs" ∈ (outputOf d).map Prod.fst ↔ d.hasClientIp = true)) := by
  have he : d.rows.isEmpty = false := by
    cases hr : d.rows with
    | nil => exact absurd hr h1
    | cons a l => rfl
  constructor
  · intro h2
    simp [analyze_dns_logs, he, h2]
  · intro h2
    refine ⟨analyze_dns_logs_eq d h1 h2, ?_⟩
    rw [outputOf]
    cases hrc : d.hasResponseCode <;> cases hqt : d.hasQueryType <;>
      cases hip : d.hasClientIp <;> simp

/-- C1, witness instantiating the amended claim: a batch with all four
loader columns. -/
def allColsBatch : DnsDF :=
  { hasDomain := true, hasClientIp := true, hasQueryType := true
  , hasResponseCode := true, hasTld := false, hasDomainLength := false
  , rows := [ mkRow (some "a.com") (some "10.0.0.1") (some "A") (some 0) ] }

theorem c1_amended_witness :
    analyze_dns_logs (some allColsBatch)
      = .ok (some (finalDF allColsBatch), outputOf allColsBatch) :=
  ((c1_amended allColsBatch (by decide)).2 rfl).1

/-- C4: the `Rare Domain Queries` count is the number of distinct domain
values occurring strictly fewer than 3 times in the batch (never the number
of matching records). -/
theorem c4_rare_counts_distinct_domains (d : DnsDF) (h1 : d.rows ≠ [])
    (h2 : d.hasDomain = true) :
    dnsEntry "Rare Domain Queries" (some d) = some (rareDomainsSpec d.rows) := by
  rw [dnsEntry_rare d h1 h2, rareCount_eq_spec]

/-- C4's example shape: `dup.com` occurs exactly twice (2 matching records)
and `big.com` three times; the rare count is 1, not 2. -/
def rareBatch : DnsDF :=
  { hasDomain := true, hasClientIp := false, hasQueryType := false
  , hasResponseCode := false, hasTld := false, hasDomainLength := false
  , rows := [ mkRow (some "dup.com") none none none
            , mkRow (some "dup.com") none none none
            , mkRow (some "big.com") none none none
            , mkRow (some "big.com") none none none
            , mkRow (some "big.com") none none none ] }

theorem c4_witness :
    dnsEntry "Rare Domain Queries" (some rareBatch) = some 1 :=
  (c4_rare_counts_distinct_domains rareBatch (by decide) rfl).trans (by decide)

/-- A batch with six distinct client IPs whose frequencies are
1, 1, 1, 1, 3, 7 (14 records).  With mean `7/3` and squared deviations
summing to `264/9`, the outlier frequency 7 exceeds
`mean + 2 * population_std` (`4 * 264/9 < (14/3)^2 * 6 / 9`-cleared:
`4224 < 4704`) but not `mean + 2 * sample_std`
(`4224 < 3920` is false), so the population-std reading flags one IP while
the code flags none. -/
def freqBatch : DnsDF :=
  { hasDomain := true, hasClientIp := true, hasQueryType := false
  , hasResponseCode := false, hasTld := false, hasDomainLength := false
  , rows := [ mkRow (some "x.com") (some "10.0.0.1") none none
            , mkRow (some "x.com") (some "10.0.0.2") none none
            , mkRow (some "x.com") (some "10.0.0.3") none none
            , mkRow (some "x.com") (some "10.0.0.4") none none ]
      ++ List.replicate 3 (mkRow (some "x.com") (some "10.0.0.5") none none)
      ++ List.replicate 7 (mkRow (some "x.com") (some "10.0.0.6") none none) }

/-- C5, counterexample: on `freqBatch` the code reports 0 high-frequency IPs
while the claimed population-standard-deviation threshold flags 1 — the
reported count is not the population-std count.  (`pandas.Series.std`
defaults to the Bessel-corrected sample deviation, `ddof = 1`.) -/
theorem c5_counterexample :
    dnsEntry "High Query Frequency IPs" (some freqBatch) = some 0
    ∧ highFreqPopSpec freqBatch.rows = 1
    ∧ dnsEntry "High Query Frequency IPs" (some freqBatch)
        ≠ some (highFreqPopSpec freqBatch.rows) := by
  exact ⟨by decide, by decide, by decide⟩

/-- C5, amended: the detection threshold is `mean + 2 * sample_std`
(`ddof = 1`, the pandas default; undefined with fewer than two distinct IPs,
in which case nothing is flagged), and the reported count is the number of
distinct client IPs whose frequency strictly exceeds it. -/
theorem c5_amended_sample_std (d : DnsDF) (h1 : d.rows ≠ []) (h2 : d.hasDomain = true)
    (h3 : d.hasClientIp = true) :
    dnsEntry "High Query Frequency IPs" (some d) = some (highFreqSampleSpec d.rows) := by
  rw [dnsEntry_highFreq d h1 h2 h3, highFreqCount_rows2, highFreqCount_eq_sampleSpec]

/-- C5, witness: two distinct IPs with frequencies 2 and 1; neither exceeds
`mean + 2 * sample_std`, and the code agrees with the standalone count. -/
def twoIpBatch : DnsDF :=
  { hasDomain := true, hasClientIp := true, hasQueryType := false
  , hasResponseCode := false, hasTld := false, hasDomainLength := false
  , rows := [ mkRow (some "a.com") (some "10.0.0.1") none none
            , mkRow (some "a.com") (some "10.0.0.1") none none
            , mkRow (some "a.com") (some "10.0.0.2") none none ] }

theorem c5_amended_witness :
    dnsEntry "High Query Frequency IPs" (some twoIpBatch) = some 0 :=
  (c5_amended_sample_std twoIpBatch (by decide) rfl rfl).trans (by decide)

/-- C6: a batch with exactly one distinct client IP reports zero
`High Query Frequency IPs` (the sample deviation of a single frequency is
NaN in pandas, every comparison against the NaN threshold is false), rather
than flagging the IP whose frequency equals the mean. -/
theorem c6_single_ip_zero (d : DnsDF) (h1 : d.rows ≠ []) (h2 : d.hasDomain = true)
    (h3 : d.hasClientIp = true)
    (h4 : (d.rows.filterMap (fun r => r.client_ip)).dedup.length = 1) :
    dnsEntry "High Query Frequency IPs" (some d) = some 0 := by
  rw [dnsEntry_highFreq d h1 h2 h3, highFreqCount_rows2, Option.some.injEq]
  show ((ipFreqs d.rows).filter (fun f => sampleFlag (ipFreqs d.rows) f)).length = 0
  have hlen : (ipFreqs d.rows).length = 1 := by
    rw [ipFreqs, valueCounts, List.length_map, List.length_map]
    exact h4
  obtain ⟨x, hx⟩ := List.length_eq_one.mp hlen
  rw [hx]
  simp [sampleFlag]

/-- C6, witness: five records from a single client IP. -/
def oneIpBatch : DnsDF :=
  { hasDomain := true, hasClientIp := true, hasQueryType := false
  , hasResponseCode := false, hasTld := false, hasDomainLength := false
  , rows := List.replicate 5 (mkRow (some "a.com") (some "10.0.0.9") none none) }

theorem c6_witness :
    dnsEntry "High Query Frequency IPs" (some oneIpBatch) = some 0 :=
  c6_single_ip_zero oneIpBatch (by decide) rfl rfl (by decide)

/-- C7: the TLD of a record is the (dot-prefixed) label after the final dot
of its domain and the empty string for a dotless or null domain; the empty
TLD is never in the fixed suspicious set, and the `Unusual TLD Queries`
count is the number of records whose TLD is in that set. -/
theorem c7_unusual_tld (d : DnsDF) (s : String) (h1 : d.rows ≠ [])
    (h2 : d.hasDomain = true) :
    dnsEntry "Unusual TLD Queries" (some d)
      = some ((d.rows.filter (fun r => suspicious_tlds.contains (get_tld r.domain))).length)
    ∧ get_tld none = ""
    ∧ (s.toList.contains '.' = false → get_tld (some s) = "")
    ∧ suspicious_tlds.contains "" = false := by
  refine ⟨?_, rfl, ?_, by decide⟩
  · rw [dnsEntry_tld d h1 h2, tldColCount_rows1]
  · intro hnd
    have hmem : ¬ '.' ∈ s.data := by simpa [String.toList] using hnd
    simp [get_tld, hmem]

/-- C7, witness: the dotless domain `a` is never flagged; of the three
records only `x.xyz` matches the suspicious-TLD set. -/
def tldBatch : DnsDF :=
  { hasDomain := true, hasClientIp := false, hasQueryType := false
  , hasResponseCode := false, hasTld := false, hasDomainLength := false
  , rows := [ mkRow (some "a") none none none
            , mkRow (some "x.xyz") none none none
            , mkRow (some "b.com") none none none ] }

theorem c7_witness :
    dnsEntry "Unusual TLD Queries" (some tldBatch) = some 1
    ∧ get_tld (some "a") = "" := by
  refine ⟨((c7_unusual_tld tldBatch "a" (by decide) rfl).1).trans (by decide), ?_⟩
  exact (c7_unusual_tld tldBatch "a" (by decide) rfl).2.2.1 (by decide)

/-- The output of an `analyze_dns_logs` run, when it does not raise. -/
def dnsOutput (df : Option DnsDF) : Option (List (String × Nat)) :=
  match analyze_dns_logs df with
  | .ok (_, out) => some out
  | .error _ => none

/-- C9: running `analyze_dns_logs` a second time on the stored batch as the
first (successful) run left it yields the identical output mapping — the
heuristics read only the loader-provided columns, which the in-place `tld` /
`domain_length` assignments do not touch. -/
theorem c9_idempotent (d d1 : DnsDF) (out : List (String × Nat))
    (h : analyze_dns_logs (some d) = .ok (some d1, out)) :
    dnsOutput (some d1) = some out := by
  cases hr : d.rows.isEmpty with
  | true =>
    rw [analyze_dns_logs] at h
    rw [hr] at h
    simp only [if_true] at h
    obtain ⟨hd1, hout⟩ : d = d1 ∧ [] = out := by simpa using h
    subst hd1
    subst hout
    rw [dnsOutput, analyze_dns_logs]
    rw [hr]
    simp
  | false =>
    have h1 : d.rows ≠ [] := by
      intro hnil
      rw [hnil] at hr
      simp at hr
    cases hd : d.hasDomain with
    | false =>
      rw [analyze_dns_logs] at h
      simp [hr, hd] at h
    | true =>
      rw [analyze_dns_logs_eq d h1 hd] at h
      obtain ⟨hd1, hout⟩ : finalDF d = d1 ∧ outputOf d = out := by simpa using h
      subst hd1
      subst hout
      have h1' : (finalDF d).rows ≠ [] := by
        show rows2 d.rows ≠ []
        rw [rows2, rows1]
        simpa using h1
      have h2' : (finalDF d).hasDomain = true := hd
      rw [dnsOutput, analyze_dns_logs_eq (finalDF d) h1' h2']
      rw [outputOf_finalDF]

/-- C9, witness: a one-record batch, analyzed, then analyzed again. -/
def idemBatch : DnsDF :=
  { hasDomain := true, hasClientIp := true, hasQueryType := true
  , hasResponseCode := true, hasTld := false, hasDomainLength := false
  , rows := [ mkRow (some "a.com") (some "10.0.0.1") (some "A") (some 0) ] }

theorem c9_witness :
    dnsOutput (some (finalDF idemBatch)) = some (outputOf idemBatch) :=
  c9_idempotent idemBatch (finalDF idemBatch) (outputOf idemBatch) rfl

/-- An empty stored batch that does have a `domain` column. -/
def emptyDomainBatch : DnsDF :=
  { hasDomain := true, hasClientIp := true, hasQueryType := true
  , hasResponseCode := true, hasTld := false, hasDomainLength := false
  , rows := [] }

/-- C10, counterexample: on an empty stored batch with a `domain` column,
`analyze_dns_logs` returns with the batch completely untouched — no `tld`
column is added (the early return on lines 230-232 precedes the column
assignments), contradicting the claim that the `tld` column is always added
when a `domain` column exists. -/
theorem c10_counterexample :
    analyze_dns_logs (some emptyDomainBatch) = .ok (some emptyDomainBatch, [])
    ∧ emptyDomainBatch.hasDomain = true
    ∧ emptyDomainBatch.hasTld = false := by
  exact ⟨rfl, rfl, rfl⟩

/-- C10, amended: on a *nonempty* stored DNS batch with a `domain` column,
`analyze_dns_logs` mutates the batch in place by setting a `tld` and a
`domain_length` column (overwriting any pre-existing columns of those two
names), leaves every other column's cells, the row count, and the WinEvent
batch unchanged; empty stored batches are returned untouched. -/
theorem c10_frame_effect (s : AnalyzerState) (d : DnsDF) (hs : s.dns_df = some d)
    (h1 : d.rows ≠ []) (h2 : d.hasDomain = true) :
    analyze_dns_logs_state s
        = .ok ({ winevent_df := s.winevent_df, dns_df := some (finalDF d) }, outputOf d)
    ∧ (finalDF d).rows.length = d.rows.length
    ∧ (finalDF d).rows.map (fun r => r.domain) = d.rows.map (fun r => r.domain)
    ∧ (finalDF d).rows.map (fun r => r.client_ip) = d.rows.map (fun r => r.client_ip)
    ∧ (finalDF d).rows.map (fun r => r.query_type) = d.rows.map (fun r => r.query_type)
    ∧ (finalDF d).rows.map (fun r => r.response_code) = d.rows.map (fun r => r.response_code)
    ∧ (finalDF d).rows.map (fun r => r.tld) = d.rows.map (fun r => some (get_tld r.domain))
    ∧ (finalDF d).rows.map (fun r => r.domain_length)
        = d.rows.map (fun r => some (py_str r.domain).length)
    ∧ (finalDF d).hasTld = true
    ∧ (finalDF d).hasDomainLength = true
    ∧ (finalDF d).hasDomain = d.hasDomain
    ∧ (finalDF d).hasClientIp = d.hasClientIp
    ∧ (finalDF d).hasQueryType = d.hasQueryType
    ∧ (finalDF d).hasResponseCode = d.hasResponseCode := by
  refine ⟨?_, ?_, ?_, ?_, ?_, ?_, ?_, ?_, rfl, rfl, rfl, rfl, rfl, rfl⟩
  · rw [analyze_dns_logs_state, hs, analyze_dns_logs_eq d h1 h2]
  · show (rows2 d.rows).length = d.rows.length
    rw [rows2, List.length_map, rows1, List.length_map]
  · show ((d.rows.map addTldRow).map addLenRow).map (fun r => r.domain) = _
    rw [List.map_map, List.map_map]
    rfl
  · show ((d.rows.map addTldRow).map addLenRow).map (fun r => r.client_ip) = _
    rw [List.map_map, List.map_map]
    rfl
  · show ((d.rows.map addTldRow).map addLenRow).map (fun r => r.query_type) = _
    rw [List.map_map, List.map_map]
    rfl
  · show ((d.rows.map addTldRow).map addLenRow).map (fun r => r.response_code) = _
    rw [List.map_map, List.map_map]
    rfl
  · show ((d.rows.map addTldRow).map addLenRow).map (fun r => r.tld) = _
    rw [List.map_map, List.map_map]
    rfl
  · show ((d.rows.map addTldRow).map addLenRow).map (fun r => r.domain_length) = _
    rw [List.map_map, List.map_map]
    rfl

/-- C10, witness: a concrete state with both batches loaded. -/
def frameState : AnalyzerState :=
  { winevent_df := some [ { eventCode := some 4625, computerName := some "h" } ]
  , dns_df := some idemBatch }

theorem c10_frame_witness :
    analyze_dns_logs_state frameState
      = .ok ({ winevent_df := frameState.winevent_df, dns_df := some (finalDF idemBatch) }
            , outputOf idemBatch) :=
  (c10_frame_effect frameState idemBatch rfl (by decide) rfl).1
